import Mathlib

/-!
Verification of the request-execution and compound-operation engine of the
mcp-devops-velocity server (src/src/lib/velocity.js).

The embedding models JavaScript JSON values as the inductive type `JValue`,
HTTP responses of the fetch transport as `HttpResponse`, and the outcome of
`executeGraphQL` as an `Except VError (Option JValue)` where the `Option`
distinguishes a present `data` field from JavaScript `undefined`.  The network
is modelled as a pure function from the outgoing `Request` to an
`HttpResponse`; the list of requests actually issued is returned alongside the
result so that claims about the number and content of network calls can be
stated.  Logging (console.log / console.error) is omitted: it does not affect
any value computed by the code.
-/

/-- JSON values as produced by response.json() and consumed by
JSON.stringify.  Numbers are modelled as integers, which covers every value
the claims exercise. -/
inductive JValue where
  | null : JValue
  | bool : Bool → JValue
  | num : Int → JValue
  | str : String → JValue
  | arr : List JValue → JValue
  | obj : List (String × JValue) → JValue

/-- Property lookup on a JSON value, as JavaScript member access on a parsed
object: a key absent from an object, or any access on a non-object value,
yields `none` (JavaScript undefined). -/
def jLookup : JValue → String → Option JValue
  | .obj fields, k => fields.lookup k
  | _, _ => none

/-- JavaScript truthiness of a possibly-undefined value, as used by the
`if (data.errors)` test: undefined, null, false, 0 and the empty string are
falsy; every array and object (including the empty ones) is truthy. -/
def jsTruthy : Option JValue → Bool
  | none => false
  | some .null => false
  | some (.bool b) => b
  | some (.num n) => n != 0
  | some (.str s) => s != ""
  | some (.arr _) => true
  | some (.obj _) => true

/-- A JSON object field that is dropped when its value is JavaScript
undefined, as JSON.stringify does when serializing the request body. -/
def optField (k : String) : Option JValue → List (String × JValue)
  | none => []
  | some v => [(k, v)]

mutual

/-- Compact serialization of a JSON value, modelling JSON.stringify (the
indentation argument of the pretty-printing calls is immaterial to every
claim, so it is not modelled; string escaping is not modelled either). -/
def JValue.stringify : JValue → String
  | .null => "null"
  | .bool b => if b then "true" else "false"
  | .num n => toString n
  | .str s => "\"" ++ s ++ "\""
  | .arr xs => "[" ++ stringifyItems xs ++ "]"
  | .obj fs => "\x7b" ++ stringifyFields fs ++ "\x7d"

/-- Comma-separated serialization of array elements. -/
def stringifyItems : List JValue → String
  | [] => ""
  | [x] => JValue.stringify x
  | x :: xs => JValue.stringify x ++ "," ++ stringifyItems xs

/-- Comma-separated serialization of object fields. -/
def stringifyFields : List (String × JValue) → String
  | [] => ""
  | [(k, v)] => "\"" ++ k ++ "\":" ++ JValue.stringify v
  | (k, v) :: fs => "\"" ++ k ++ "\":" ++ JValue.stringify v ++ "," ++ stringifyFields fs

end

/-- JSON.stringify applied to a possibly-undefined value: interpolating the
result of stringifying undefined produces the text undefined. -/
def stringifyOpt : Option JValue → String
  | none => "undefined"
  | some v => v.stringify

/-- Process configuration established once at startup by getConfig: endpoint
URL, opaque credential and tenant identifier (all three are validated
non-empty at startup, a fatal ConfigurationError otherwise). -/
structure Config where
  graphqlUrl : String
  accessToken : String
  tenantId : String
deriving DecidableEq

/-- An HTTP response as seen through the fetch API: status code, raw body
text (response.text()) and the parsed JSON body (response.json()), with
`none` when the body is not valid JSON. -/
structure HttpResponse where
  status : Nat
  bodyText : String
  json : Option JValue

/-- response.ok of the fetch API: the status is in the inclusive range
200..299. -/
def HttpResponse.ok (r : HttpResponse) : Bool :=
  200 ≤ r.status && r.status < 300

/-- One outgoing HTTP POST as assembled by attemptGraphQLRequest: the
configured endpoint URL, the GraphQL operation document, the variables
structure (after JSON serialization, which drops undefined fields) and the
header list. -/
structure Request where
  url : String
  query : String
  vars : JValue
  headers : List (String × String)

/-- The error taxonomy of the engine.  The JavaScript code signals each kind
by throwing an Error whose message is rendered by `VError.message` below;
the constructor arguments record the information the message is built from.
`typeError` models the TypeError raised by member access on undefined or
null. -/
inductive VError where
  | transportError : Nat → String → VError
  | graphQLError : JValue → VError
  | jsonError : String → VError
  | validationError : String → VError
  | typeError : String → VError

/-- The message of the JavaScript Error corresponding to each error kind,
exactly as thrown by the source. -/
def VError.message : VError → String
  | .transportError status body => "HTTP " ++ toString status ++ ": " ++ body
  | .graphQLError errs => "GraphQL errors: " ++ errs.stringify
  | .jsonError m => m
  | .validationError m => m
  | .typeError m => m

/-- True exactly on a validation failure. -/
def isValidationError : Except VError (Option JValue) → Bool
  | .error (.validationError _) => true
  | _ => false

/-- True exactly on a transport-level or GraphQL-level failure, the two
kinds a Request Executor call can produce over a well-formed response. -/
def isTransportOrGraphQL : VError → Bool
  | .transportError _ _ => true
  | .graphQLError _ => true
  | _ => false

/-- True when the first character list is a leading segment of the second. -/
def charListLeads : List Char → List Char → Bool
  | [], _ => true
  | _ :: _, [] => false
  | p :: ps, c :: cs => p == c && charListLeads ps cs

/-- True when the first character list occurs contiguously in the second. -/
def charListOccurs : List Char → List Char → Bool
  | pat, [] => pat.isEmpty
  | pat, c :: cs => charListLeads pat (c :: cs) || charListOccurs pat cs

/-- Substring containment, modelling String.prototype.includes. -/
def strIncludes (s pat : String) : Bool :=
  charListOccurs pat.toList s.toList

/-- Credential classification (line 81 of velocity.js): the credential is a
session cookie exactly when it contains either literal marker substring. -/
def isSessionCookie (accessToken : String) : Bool :=
  strIncludes accessToken "VelocitySession=" || strIncludes accessToken "SecurityApiSession="

/-- Header construction of executeGraphQL (lines 85..101): the three fixed
headers plus either the Cookie header (session-cookie mode) or the
Authorization header (access-key mode). -/
def buildHeaders (accessToken : String) : List (String × String) :=
  if isSessionCookie accessToken then
    [("Content-Type", "application/json"),
     ("Accept", "*/*"),
     ("User-Agent", "MCP-Velocity-Client/1.0.0"),
     ("Cookie", accessToken)]
  else
    [("Content-Type", "application/json"),
     ("Accept", "*/*"),
     ("User-Agent", "MCP-Velocity-Client/1.0.0"),
     ("Authorization", "UserAccessKey " ++ accessToken)]

/-- The request attemptGraphQLRequest sends: a POST of query and variables
to the configured endpoint with the headers chosen by buildHeaders. -/
def mkRequest (cfg : Config) (query : String) (vars : JValue) : Request :=
  ⟨cfg.graphqlUrl, query, vars, buildHeaders cfg.accessToken⟩

/-- Response normalization of executeGraphQL (lines 103..118), in source
order: a not-ok status raises the transport error carrying the status and the
raw body text; then the body is parsed as JSON (a parse failure raises); then
a truthy `errors` field raises the GraphQL error carrying that field;
otherwise the content of the `data` field is returned. -/
def processResponse (resp : HttpResponse) : Except VError (Option JValue) :=
  if !resp.ok then
    .error (.transportError resp.status resp.bodyText)
  else
    match resp.json with
    | none => .error (.jsonError "Unexpected token in JSON")
    | some body =>
      if jsTruthy (jLookup body "errors") then
        .error (.graphQLError ((jLookup body "errors").getD .null))
      else
        .ok (jLookup body "data")

/-- The Request Executor (executeGraphQL, lines 74..123): build the request
with the classified headers, send it through the transport, and normalize
the response.  The issued request is returned so callers can account for
network calls. -/
def executeGraphQL (transport : Request → HttpResponse) (cfg : Config)
    (query : String) (vars : JValue) : Request × Except VError (Option JValue) :=
  let req := mkRequest cfg query vars
  (req, processResponse (transport req))

/-- JavaScript member access used on Request Executor results: access on
undefined or null throws a TypeError; access on an object yields the field
value or undefined; access on any other value yields undefined. -/
def jsGet : Option JValue → String → Except String (Option JValue)
  | none, k => .error ("Cannot read properties of undefined (reading " ++ k ++ ")")
  | some .null, k => .error ("Cannot read properties of null (reading " ++ k ++ ")")
  | some (.obj fields), k => .ok (fields.lookup k)
  | some _, _ => .ok none

/-- One approver entry of a manual gate request, after schema validation:
identifier, display name, and capability kind, the latter being the string
user or group (the schema defaults it to user). -/
structure Approver where
  _id : String
  name : String
  type : String
deriving DecidableEq

/-- The JSON rendering of an approver entry as it is serialized into the
CreateRule request body. -/
def approverJson (a : Approver) : JValue :=
  .obj [("_id", .str a._id), ("name", .str a.name), ("type", .str a.type)]

/-- The metric-definition reference of a metric rule: identifier and name. -/
structure MetricDef where
  id : String
  name : String

/-- The JSON rendering of a metric-definition reference. -/
def metricDefJson (m : MetricDef) : JValue :=
  .obj [("id", .str m.id), ("name", .str m.name)]

/-- A query-condition object: comparison type, field, numeric value. -/
structure Dql where
  type : String
  field : String
  value : Int

/-- The JSON rendering of a query-condition object. -/
def dqlJson (d : Dql) : JValue :=
  .obj [("type", .str d.type), ("field", .str d.field), ("value", .num d.value)]

/-- The optional time-range object of a metric rule. -/
structure TimeRange where
  type : Option String
  value : Option Int

/-- The JSON rendering of a time-range object, dropping absent fields as
JSON serialization does. -/
def timeRangeJson (t : TimeRange) : JValue :=
  .obj (optField "type" (t.type.map .str) ++ optField "value" (t.value.map .num))

/-- The metricRule argument.  The fields the handler checks with JavaScript
negation are optional here, so that absence is representable. -/
structure MetricRuleIn where
  metricDefinition : Option MetricDef
  dql : Option Dql
  description : String
  dataSet : Option String
  timeRange : Option TimeRange

/-- The complianceRule argument.  resource is optional so that both absence
and the empty string (both falsy in the handler check) are representable. -/
structure ComplianceRuleIn where
  description : String
  resource : Option String
  dql : Option Dql

/-- The statusRule argument. -/
structure StatusRuleIn where
  status : Option String
  description : String

/-- The validated arguments of one add_pipeline_gate invocation (the
GateSpec).  gateType is carried as a string, matching the dispatch the
handler performs; manualGateNotification has already received its schema
default. -/
structure GateArgs where
  pipelineId : String
  stageId : String
  gateType : String
  gateName : String
  manualApprovers : Option (List Approver)
  metricRule : Option MetricRuleIn
  complianceRule : Option ComplianceRuleIn
  statusRule : Option StatusRuleIn
  manualGateNotification : Bool

/-- JavaScript truthiness of a possibly-absent string (absence and the empty
string are falsy). -/
def strTruthy (o : Option String) : Bool :=
  o.getD "" != ""

/-- The ASCII whitespace characters removed by String.prototype.trim (the
full JavaScript set also has Unicode space separators, which no claim
exercises). -/
def isJsSpace (c : Char) : Bool :=
  c == ' ' || c == '\t' || c == '\n' || c == '\r'

/-- String.prototype.trim: leading and trailing whitespace removed. -/
def jsTrim (s : String) : String :=
  ⟨((s.data.dropWhile isJsSpace).reverse.dropWhile isJsSpace).reverse⟩

/-- The CreateRule mutation document of the manual branch (velocity.js lines
1329..1333). -/
def addManualVersionSignOffRuleMutation : String :=
  "\n                    mutation AddManualVersionSignOffRule($input: ManualVersionSignOffIn!) \x7b\n                        addManualVersionSignOffRule(input: $input) \x7b _id name pipelineId approvers \x7b _id name type \x7d \x7d\n                    \x7d\n                "

/-- The CreateRule mutation document of the metric branch. -/
def addAutomatedMetricRuleMutation : String :=
  "\n                    mutation AddAutomatedMetricRule($input: AutomatedMetricCriterionIn!) \x7b\n                        addAutomatedMetricRule(input: $input) \x7b _id name pipelineId \x7d\n                    \x7d\n                "

/-- The CreateRule mutation document of the compliance branch. -/
def addComplianceRuleMutation : String :=
  "\n                    mutation AddComplianceRule($input: ComplianceRuleIn!) \x7b\n                        addComplianceRule(input: $input) \x7b _id name pipelineId \x7d\n                    \x7d\n                "

/-- The CreateRule mutation document of the status branch. -/
def addStatusRuleMutation : String :=
  "\n                    mutation AddStatusRule($input: StatusRuleIn!) \x7b\n                        addStatusRule(input: $input) \x7b _id name pipelineId \x7d\n                    \x7d\n                "

/-- The AttachGate mutation document (velocity.js lines 1409..1415). -/
def upsertPipelineGateMutation : String :=
  "\n                mutation UpsertPipelineGate($pipelineId: ID!, $stageId: ID!, $ruleIds: [ID!]!, $manualGateNotification: Boolean!) \x7b\n                    upsertPipelineGate(pipelineId: $pipelineId, stageId: $stageId, ruleIds: $ruleIds, manualGateNotification: $manualGateNotification) \x7b\n                        _id pipelineId stageId rules \x7b ruleType \x7b ... on ManualVersionSignOff \x7b _id name \x7d ... on AutomatedMetricCriterion \x7b _id name \x7d ... on ComplianceRule \x7b _id name \x7d ... on StatusRule \x7b _id name \x7d \x7d \x7d manualGateNotification\n                    \x7d\n                \x7d\n            "

/-- The user-kind approvers of the supplied list, in order: the filter the
manual branch applies before submission (line 1324). -/
def userApproversOf (a : GateArgs) : List Approver :=
  (a.manualApprovers.getD []).filter (fun ap => ap.type == "user")

/-- The CreateRule variables of the manual branch (lines 1334..1340): only
the user-kind approvers are serialized. -/
def manualCreateVars (a : GateArgs) : JValue :=
  .obj [("input", .obj
    [("name", .str a.gateName),
     ("pipelineId", .str a.pipelineId),
     ("approvers", .arr ((userApproversOf a).map approverJson))])]

/-- The CreateRule variables of the metric branch (lines 1352..1362). -/
def metricCreateVars (a : GateArgs) (mr : MetricRuleIn) : JValue :=
  .obj [("input", .obj
    ([("pipelineId", .str a.pipelineId),
      ("name", .str a.gateName),
      ("description", .str mr.description)]
     ++ optField "metricDefinition" (mr.metricDefinition.map metricDefJson)
     ++ optField "dql" (mr.dql.map dqlJson)
     ++ optField "dataSet" (mr.dataSet.map .str)
     ++ optField "timeRange" (mr.timeRange.map timeRangeJson)))]

/-- The CreateRule variables of the compliance branch (lines 1374..1382). -/
def complianceCreateVars (a : GateArgs) (cr : ComplianceRuleIn) : JValue :=
  .obj [("input", .obj
    ([("pipelineId", .str a.pipelineId),
      ("name", .str a.gateName),
      ("description", .str cr.description)]
     ++ optField "resource" (cr.resource.map .str)
     ++ optField "dql" (cr.dql.map dqlJson)))]

/-- The CreateRule variables of the status branch (lines 1394..1401). -/
def statusCreateVars (a : GateArgs) (sr : StatusRuleIn) : JValue :=
  .obj [("input", .obj
    ([("pipelineId", .str a.pipelineId),
      ("name", .str a.gateName)]
     ++ optField "status" (sr.status.map .str)
     ++ [("description", .str sr.description)]))]

/-- The gate-type dispatch of the handler (lines 1316..1406), up to and
including the choice of CreateRule payload: the branch validation in source
order, then the mutation document, its variables, and the field under which
the created rule is returned.  An error value is the message of the Error
the handler throws. -/
def createPlan (a : GateArgs) : Except String (String × JValue × String) :=
  if a.gateType == "manual" then
    if jsTrim a.gateName == "" then
      .error "gateName (rule name) is required for manual gate and must be a non-empty string"
    else if (a.manualApprovers.getD []).isEmpty then
      .error "manualApprovers (at least one user) is required for manual gate"
    else if (userApproversOf a).isEmpty then
      .error "At least one manual approver of type \x27user\x27 is required for manual gate"
    else
      .ok (addManualVersionSignOffRuleMutation, manualCreateVars a, "addManualVersionSignOffRule")
  else if a.gateType == "metric" then
    match a.metricRule with
    | none => .error "metricRule.metricDefinition and metricRule.dql are required for metric gate"
    | some mr =>
      if mr.metricDefinition.isNone || mr.dql.isNone then
        .error "metricRule.metricDefinition and metricRule.dql are required for metric gate"
      else
        .ok (addAutomatedMetricRuleMutation, metricCreateVars a mr, "addAutomatedMetricRule")
  else if a.gateType == "compliance" then
    match a.complianceRule with
    | none => .error "complianceRule.resource and complianceRule.dql are required for compliance gate"
    | some cr =>
      if !strTruthy cr.resource || cr.dql.isNone then
        .error "complianceRule.resource and complianceRule.dql are required for compliance gate"
      else
        .ok (addComplianceRuleMutation, complianceCreateVars a cr, "addComplianceRule")
  else if a.gateType == "status" then
    match a.statusRule with
    | none => .error "statusRule.status is required for status gate"
    | some sr =>
      if !strTruthy sr.status then
        .error "statusRule.status is required for status gate"
      else
        .ok (addStatusRuleMutation, statusCreateVars a sr, "addStatusRule")
  else
    .error "Unsupported gateType"

/-- The AttachGate variables (lines 1416..1421): the created rule identifier
as a one-element list, the original pipelineId, stageId and notification
flag.  An undefined rule identifier serializes as null inside the array. -/
def upsertGateVars (a : GateArgs) (ruleId : Option JValue) : JValue :=
  .obj [("pipelineId", .str a.pipelineId),
        ("stageId", .str a.stageId),
        ("ruleIds", .arr [ruleId.getD .null]),
        ("manualGateNotification", .bool a.manualGateNotification)]

/-- The Compound Gate Provisioner: the body of the add_pipeline_gate handler
inside its try block (lines 1312..1428).  Validation and payload shaping via
createPlan, one executeGraphQL call for CreateRule, extraction of the
created rule identifier (result.<field>._id), then one executeGraphQL call
for AttachGate and extraction of upsertResult.upsertPipelineGate.  The first
component lists the requests issued, in order. -/
def add_pipeline_gate_core (transport : Request → HttpResponse) (cfg : Config)
    (a : GateArgs) : List Request × Except VError (Option JValue) :=
  match createPlan a with
  | .error m => ([], .error (.validationError m))
  | .ok (doc, vars, field) =>
    let step1 := executeGraphQL transport cfg doc vars
    match step1.2 with
    | .error e => ([step1.1], .error e)
    | .ok result =>
      match jsGet result field with
      | .error m => ([step1.1], .error (.typeError m))
      | .ok ruleObj =>
        match jsGet ruleObj "_id" with
        | .error m => ([step1.1], .error (.typeError m))
        | .ok ruleId =>
          let step2 := executeGraphQL transport cfg upsertPipelineGateMutation (upsertGateVars a ruleId)
          match step2.2 with
          | .error e => ([step1.1, step2.1], .error e)
          | .ok upsertResult =>
            match jsGet upsertResult "upsertPipelineGate" with
            | .error m => ([step1.1, step2.1], .error (.typeError m))
            | .ok gate => ([step1.1, step2.1], .ok gate)

/-- A tool response at the tool-invocation boundary: a list of content
items, each a text payload. -/
inductive ContentItem where
  | text : String → ContentItem

/-- The response object a tool handler returns. -/
structure ToolResponse where
  content : List ContentItem

/-- The add_pipeline_gate tool handler (lines 1312..1437): the provisioner
body wrapped in the try/catch that renders success as one text payload and
any thrown error as one text payload. -/
def add_pipeline_gate_tool (transport : Request → HttpResponse) (cfg : Config)
    (a : GateArgs) : ToolResponse :=
  match (add_pipeline_gate_core transport cfg a).2 with
  | .ok gate => ⟨[.text ("Gate added to pipeline stage: " ++ stringifyOpt gate)]⟩
  | .error e => ⟨[.text ("Error adding gate: " ++ e.message)]⟩

/-- The date range filter of get_release_events: start and end ISO
strings (the source field names are start and end; end is a reserved word
here). -/
structure DateRangeArg where
  startDate : String
  endDate : String

/-- The arguments of the get_release_events tool after schema validation:
every field optional. -/
structure ReleaseEventsArgs where
  first : Option Int
  dateRange : Option DateRangeArg
  status : Option String
  state : Option String

/-- The GetReleaseEvents query document (velocity.js lines 177..217). -/
def getReleaseEventsQuery : String :=
  "\n                query GetReleaseEvents($first: Int, $dateRange: dateRangeInput, $status: ReleaseStatus, $state: ReleaseState) \x7b\n                    releaseEventsSearch(\n                        first: $first\n                        dateRange: $dateRange\n                        status: $status\n                        state: $state\n                    ) \x7b\n                        nodes \x7b\n                            _id\n                            name\n                            description\n                            start\n                            end\n                            status\n                            state\n                            team \x7b\n                                id\n                                name\n                            \x7d\n                            tags \x7b\n                                _id\n                                name\n                            \x7d\n                            planStats \x7b\n                                planCount\n                                appCount\n                                teamCount\n                                taskCount\n                                completedTaskCount\n                            \x7d\n                        \x7d\n                        pageInfo \x7b\n                            endCursor \x7b\n                                key\n                                id\n                            \x7d\n                        \x7d\n                    \x7d\n                \x7d\n            "

/-- The JSON rendering of the dateRange variable, under its source keys. -/
def dateRangeJson (d : DateRangeArg) : JValue :=
  .obj [("start", .str d.startDate), ("end", .str d.endDate)]

/-- The variables of get_release_events (lines 219..224), with undefined
fields dropped by serialization. -/
def releaseEventsVars (a : ReleaseEventsArgs) : JValue :=
  .obj (optField "first" (a.first.map .num)
        ++ optField "dateRange" (a.dateRange.map dateRangeJson)
        ++ optField "status" (a.status.map .str)
        ++ optField "state" (a.state.map .str))

/-- The get_release_events tool handler (lines 163..243): one Request
Executor call inside the try/catch, success rendered as one text payload
from result.releaseEventsSearch, any thrown error rendered as one text
payload from its message. -/
def get_release_events_tool (transport : Request → HttpResponse) (cfg : Config)
    (a : ReleaseEventsArgs) : ToolResponse :=
  let r := executeGraphQL transport cfg getReleaseEventsQuery (releaseEventsVars a)
  match r.2 with
  | .error e => ⟨[.text ("Error retrieving release events: " ++ e.message)]⟩
  | .ok result =>
    match jsGet result "releaseEventsSearch" with
    | .error m => ⟨[.text ("Error retrieving release events: " ++ (VError.typeError m).message)]⟩
    | .ok v => ⟨[.text ("Release events retrieved: " ++ stringifyOpt v)]⟩

/-- JavaScript || on a possibly-absent string against a fallback, as in
providedTenantId || tenantId (line 376): absence and the empty string both
select the fallback. -/
def jsStrOr (provided : Option String) (fallback : String) : String :=
  match provided with
  | none => fallback
  | some s => if s == "" then fallback else s

/-- The tenantId actually placed in the variables of get_pipelines_by_tenant
(lines 375..377). -/
def sentTenantId (cfg : Config) (provided : Option String) : String :=
  jsStrOr provided cfg.tenantId

/-- The variables of get_pipelines_by_tenant (lines 375..377). -/
def getPipelinesByTenantVars (cfg : Config) (provided : Option String) : JValue :=
  .obj [("tenantId", .str (sentTenantId cfg provided))]

/-- The gate-type-specific validation conditions enumerated by the claim on
gate provisioning preconditions: manual with an empty-after-trimming name or
with zero user-kind approvers; metric missing the metric-definition
reference or the query-condition object; compliance missing the resource
identifier or the query-condition object; status missing the status value;
or an unsupported gate type. -/
def gateSpecInvalid (a : GateArgs) : Bool :=
  (a.gateType == "manual" &&
    (jsTrim a.gateName == "" || (userApproversOf a).isEmpty))
  || (a.gateType == "metric" &&
      (match a.metricRule with
       | none => true
       | some mr => mr.metricDefinition.isNone || mr.dql.isNone))
  || (a.gateType == "compliance" &&
      (match a.complianceRule with
       | none => true
       | some cr => cr.resource.isNone || cr.dql.isNone))
  || (a.gateType == "status" &&
      (match a.statusRule with
       | none => true
       | some sr => sr.status.isNone))
  || (a.gateType != "manual" && a.gateType != "metric"
      && a.gateType != "compliance" && a.gateType != "status")

/-- The number of requests in a trace that carry the AttachGate mutation. -/
def countAttachCalls (rs : List Request) : Nat :=
  (rs.filter (fun r => r.query == upsertPipelineGateMutation)).length

/-- True exactly on a success outcome of the Request Executor. -/
def isSuccess : Except VError (Option JValue) → Bool
  | .ok _ => true
  | .error _ => false

/-- A concrete configuration used by the evaluation witnesses below. -/
def cfg0 : Config :=
  ⟨"https://velocity.example.test/release-events-api/graphql", "my-access-key-0001", "tenant-1"⟩

/-- C6: a Request Executor call whose HTTP response has a status outside
2xx fails with a TransportError carrying that exact status code and the raw
response body text.  The response body (including any errors field it may
hold) is universally quantified, so the transport check is established
before and independently of the errors-collection check. -/
theorem executeGraphQL_non2xx_transportError
    (transport : Request → HttpResponse) (cfg : Config) (q : String) (v : JValue)
    (resp : HttpResponse) (hresp : transport (mkRequest cfg q v) = resp)
    (hstatus : ¬ (200 ≤ resp.status ∧ resp.status < 300)) :
    (executeGraphQL transport cfg q v).2 = .error (.transportError resp.status resp.bodyText) := by
  have hok : resp.ok = false := by
    simp only [HttpResponse.ok, Bool.and_eq_false_iff, decide_eq_false_iff_not]
    omega
  simp [executeGraphQL, hresp, processResponse, hok]

/-- Witness for C6: a 500 response whose body even contains a non-empty
errors collection still yields the TransportError with status 500 and the
raw body text. -/
theorem executeGraphQL_non2xx_transportError_witness :
    ¬ (200 ≤ 500 ∧ 500 < 300) ∧
    (executeGraphQL
      (fun _ => ⟨500, "internal server error",
        some (.obj [("errors", .arr [.obj [("message", .str "x")]])])⟩)
      cfg0 "query Q" (.obj [])).2
      = .error (.transportError 500 "internal server error") :=
  ⟨by decide,
   executeGraphQL_non2xx_transportError _ cfg0 "query Q" (.obj [])
     ⟨500, "internal server error",
       some (.obj [("errors", .arr [.obj [("message", .str "x")]])])⟩
     rfl (by decide)⟩

/-- C5: a Request Executor call whose HTTP response is 2xx with a valid
JSON body whose errors field is a non-empty collection fails with a
GraphQLError carrying that collection unchanged, every entry present. -/
theorem executeGraphQL_errors_carried_verbatim
    (transport : Request → HttpResponse) (cfg : Config) (q : String) (v : JValue)
    (resp : HttpResponse) (body : JValue) (errs : List JValue)
    (hresp : transport (mkRequest cfg q v) = resp)
    (hstatus : 200 ≤ resp.status ∧ resp.status < 300)
    (hjson : resp.json = some body)
    (herrs : jLookup body "errors" = some (.arr errs))
    (_hne : errs ≠ []) :
    (executeGraphQL transport cfg q v).2 = .error (.graphQLError (.arr errs)) := by
  have hok : resp.ok = true := by
    simp only [HttpResponse.ok, Bool.and_eq_true, decide_eq_true_eq]
    omega
  simp [executeGraphQL, hresp, processResponse, hok, hjson, herrs, jsTruthy]

/-- Witness for C5: errors equal to [ obj [message : bad field] ] are
carried in the failure unchanged, not summarized. -/
theorem executeGraphQL_errors_carried_verbatim_witness :
    (200 ≤ 200 ∧ 200 < 300) ∧
    ([JValue.obj [("message", .str "bad field")]] ≠ ([] : List JValue)) ∧
    (executeGraphQL
      (fun _ => ⟨200, "",
        some (.obj [("errors", .arr [.obj [("message", .str "bad field")]])])⟩)
      cfg0 "query Q" (.obj [])).2
      = .error (.graphQLError (.arr [.obj [("message", .str "bad field")]])) :=
  ⟨by decide, List.cons_ne_nil _ _,
   executeGraphQL_errors_carried_verbatim _ cfg0 "query Q" (.obj [])
     ⟨200, "", some (.obj [("errors", .arr [.obj [("message", .str "bad field")]])])⟩
     (.obj [("errors", .arr [.obj [("message", .str "bad field")]])])
     [.obj [("message", .str "bad field")]]
     rfl (by decide) rfl rfl (List.cons_ne_nil _ _)⟩

/-- The concrete 200 response whose body holds an empty errors collection,
refuting the claim that such a body yields success. -/
def emptyErrorsBody : JValue :=
  .obj [("errors", .arr []), ("data", .obj [("x", .num 1)])]

/-- Counterexample to C7 as stated: a 2xx response whose valid JSON body
holds an errors field that is an empty collection does not produce success;
the code tests the field for JavaScript truthiness and an empty array is
truthy, so the outcome is a GraphQLError carrying the empty collection. -/
theorem executeGraphQL_empty_errors_counterexample :
    isSuccess (processResponse ⟨200, "", some emptyErrorsBody⟩) = false
    ∧ processResponse ⟨200, "", some emptyErrorsBody⟩
        = .error (.graphQLError (.arr [])) :=
  ⟨rfl, rfl⟩

/-- C7 as amended: a Request Executor call whose HTTP response is 2xx with
a valid JSON body whose errors field is absent or falsy (for example null)
succeeds, returning exactly the content of the data field of the body. -/
theorem executeGraphQL_success_returns_data
    (transport : Request → HttpResponse) (cfg : Config) (q : String) (v : JValue)
    (resp : HttpResponse) (body : JValue)
    (hresp : transport (mkRequest cfg q v) = resp)
    (hstatus : 200 ≤ resp.status ∧ resp.status < 300)
    (hjson : resp.json = some body)
    (herrs : jsTruthy (jLookup body "errors") = false) :
    (executeGraphQL transport cfg q v).2 = .ok (jLookup body "data") := by
  have hok : resp.ok = true := by
    simp only [HttpResponse.ok, Bool.and_eq_true, decide_eq_true_eq]
    omega
  simp [executeGraphQL, hresp, processResponse, hok, hjson, herrs]

/-- Witness for the amended C7: a body without an errors field succeeds
with exactly the content of its data field. -/
theorem executeGraphQL_success_returns_data_witness :
    jsTruthy (jLookup (.obj [("data", .obj [("pipelines", .arr [])])]) "errors") = false ∧
    (executeGraphQL
      (fun _ => ⟨200, "", some (.obj [("data", .obj [("pipelines", .arr [])])])⟩)
      cfg0 "query Q" (.obj [])).2
      = .ok (some (.obj [("pipelines", .arr [])])) :=
  ⟨rfl,
   executeGraphQL_success_returns_data _ cfg0 "query Q" (.obj [])
     ⟨200, "", some (.obj [("data", .obj [("pipelines", .arr [])])])⟩
     (.obj [("data", .obj [("pipelines", .arr [])])])
     rfl (by decide) rfl rfl⟩

/-- C8: the authentication mode is the stated pure function of the
credential content, and the header set is the three fixed headers plus
Cookie in session-cookie mode or Authorization with the UserAccessKey
scheme otherwise. -/
theorem buildHeaders_auth_mode (cred : String) :
    (isSessionCookie cred
      = (strIncludes cred "VelocitySession=" || strIncludes cred "SecurityApiSession="))
    ∧ (isSessionCookie cred = true →
        buildHeaders cred =
          [("Content-Type", "application/json"),
           ("Accept", "*/*"),
           ("User-Agent", "MCP-Velocity-Client/1.0.0"),
           ("Cookie", cred)])
    ∧ (isSessionCookie cred = false →
        buildHeaders cred =
          [("Content-Type", "application/json"),
           ("Accept", "*/*"),
           ("User-Agent", "MCP-Velocity-Client/1.0.0"),
           ("Authorization", "UserAccessKey " ++ cred)]) := by
  refine ⟨rfl, ?_, ?_⟩ <;> intro h <;> simp [buildHeaders, h]

/-- Witness for C8: one credential containing a marker substring takes the
Cookie header; one containing neither marker takes the Authorization
header. -/
theorem buildHeaders_auth_mode_witness :
    isSessionCookie "VelocitySession=abc; SecurityApiSession=def" = true
    ∧ buildHeaders "VelocitySession=abc; SecurityApiSession=def" =
        [("Content-Type", "application/json"),
         ("Accept", "*/*"),
         ("User-Agent", "MCP-Velocity-Client/1.0.0"),
         ("Cookie", "VelocitySession=abc; SecurityApiSession=def")]
    ∧ isSessionCookie "my-access-key-0001" = false
    ∧ buildHeaders "my-access-key-0001" =
        [("Content-Type", "application/json"),
         ("Accept", "*/*"),
         ("User-Agent", "MCP-Velocity-Client/1.0.0"),
         ("Authorization", "UserAccessKey " ++ "my-access-key-0001")] :=
  ⟨by decide,
   (buildHeaders_auth_mode "VelocitySession=abc; SecurityApiSession=def").2.1 (by decide),
   by decide,
   (buildHeaders_auth_mode "my-access-key-0001").2.2 (by decide)⟩

/-- C10: when the optional tenantId argument of get_pipelines_by_tenant is
omitted or supplied as the empty string (any falsy value), the configured
tenant identifier is substituted, and with a non-empty configured tenant
the empty string is never placed in the outgoing variables. -/
theorem getPipelinesByTenant_empty_tenant_fallback
    (cfg : Config) (provided : Option String) (hcfg : cfg.tenantId ≠ "") :
    ((provided = none ∨ provided = some "") →
       getPipelinesByTenantVars cfg provided = .obj [("tenantId", .str cfg.tenantId)])
    ∧ getPipelinesByTenantVars cfg provided ≠ .obj [("tenantId", .str "")] := by
  constructor
  · rintro (rfl | rfl) <;> simp [getPipelinesByTenantVars, sentTenantId, jsStrOr]
  · rcases provided with _ | s
    · simp [getPipelinesByTenantVars, sentTenantId, jsStrOr]
      intro h
      exact hcfg h
    · by_cases hs : s == ""
      · simp [getPipelinesByTenantVars, sentTenantId, jsStrOr, hs]
        intro h
        exact hcfg h
      · simp [getPipelinesByTenantVars, sentTenantId, jsStrOr, hs]
        intro h
        exact absurd (by simp [h]) hs

/-- Witness for C10: with configured tenant tenant-1, an explicitly
supplied empty-string tenantId is replaced by tenant-1 in the outgoing
variables. -/
theorem getPipelinesByTenant_empty_tenant_fallback_witness :
    cfg0.tenantId ≠ "" ∧
    getPipelinesByTenantVars cfg0 (some "") = .obj [("tenantId", .str cfg0.tenantId)] :=
  ⟨by decide,
   (getPipelinesByTenant_empty_tenant_fallback cfg0 (some "") (by decide)).1 (Or.inr rfl)⟩

/-- When the manual-branch validation passes, createPlan selects the manual
CreateRule mutation, the filtered variables, and the manual result field. -/
theorem createPlan_manual (a : GateArgs) (hT : a.gateType = "manual")
    (hN : jsTrim a.gateName ≠ "") (hU : userApproversOf a ≠ []) :
    createPlan a
      = .ok (addManualVersionSignOffRuleMutation, manualCreateVars a,
             "addManualVersionSignOffRule") := by
  have hbase : a.manualApprovers.getD [] ≠ [] := by
    intro hb
    exact hU (by simp [userApproversOf, hb])
  have h1 : (jsTrim a.gateName == "") = false := by simpa using hN
  have h2 : (a.manualApprovers.getD []).isEmpty = false := by
    simpa [List.isEmpty_iff] using hbase
  have h3 : (userApproversOf a).isEmpty = false := by
    simpa [List.isEmpty_iff] using hU
  simp [createPlan, hT, h1, h2, h3]

/-- Every condition enumerated by the validation claim makes createPlan
stop with an error before any request is built. -/
theorem createPlan_error_of_invalid (a : GateArgs) (h : gateSpecInvalid a = true) :
    ∃ m, createPlan a = .error m := by
  by_cases hman : a.gateType = "manual"
  · have hcond : jsTrim a.gateName = "" ∨ userApproversOf a = [] := by
      unfold gateSpecInvalid at h
      rw [hman] at h
      simpa [List.isEmpty_iff] using h
    by_cases h1 : (jsTrim a.gateName == "") = true
    · exact ⟨"gateName (rule name) is required for manual gate and must be a non-empty string",
        by simp [createPlan, hman, h1]⟩
    · by_cases h2 : (a.manualApprovers.getD []).isEmpty = true
      · exact ⟨"manualApprovers (at least one user) is required for manual gate",
          by simp [createPlan, hman, h1, h2]⟩
      · have h3 : (userApproversOf a).isEmpty = true := by
          rcases hcond with hc | hc
          · exact absurd (by simpa using hc) h1
          · simpa [List.isEmpty_iff] using hc
        exact ⟨"At least one manual approver of type \x27user\x27 is required for manual gate",
          by simp [createPlan, hman, h1, h2, h3]⟩
  · by_cases hmet : a.gateType = "metric"
    · rcases hmr : a.metricRule with _ | mr
      · exact ⟨"metricRule.metricDefinition and metricRule.dql are required for metric gate",
          by simp [createPlan, hmet, hmr]⟩
      · rcases hmd : mr.metricDefinition with _ | md
        · exact ⟨"metricRule.metricDefinition and metricRule.dql are required for metric gate",
            by simp [createPlan, hmet, hmr, hmd]⟩
        · rcases hdq : mr.dql with _ | dq
          · exact ⟨"metricRule.metricDefinition and metricRule.dql are required for metric gate",
              by simp [createPlan, hmet, hmr, hmd, hdq]⟩
          · exfalso
            simp [gateSpecInvalid, hmet, hmr, hmd, hdq] at h
    · by_cases hcom : a.gateType = "compliance"
      · rcases hcr : a.complianceRule with _ | cr
        · exact ⟨"complianceRule.resource and complianceRule.dql are required for compliance gate",
            by simp [createPlan, hman, hmet, hcom, hcr]⟩
        · rcases hres : cr.resource with _ | s
          · exact ⟨"complianceRule.resource and complianceRule.dql are required for compliance gate",
              by simp [createPlan, hman, hmet, hcom, hcr, hres, strTruthy]⟩
          · rcases hdq : cr.dql with _ | dq
            · exact ⟨"complianceRule.resource and complianceRule.dql are required for compliance gate",
                by simp [createPlan, hman, hmet, hcom, hcr, hdq]⟩
            · exfalso
              simp [gateSpecInvalid, hman, hmet, hcom, hcr, hres, hdq] at h
      · by_cases hsta : a.gateType = "status"
        · rcases hsr : a.statusRule with _ | sr
          · exact ⟨"statusRule.status is required for status gate",
              by simp [createPlan, hman, hmet, hcom, hsta, hsr]⟩
          · rcases hst : sr.status with _ | s
            · exact ⟨"statusRule.status is required for status gate",
                by simp [createPlan, hman, hmet, hcom, hsta, hsr, hst, strTruthy]⟩
            · exfalso
              simp [gateSpecInvalid, hman, hmet, hcom, hsta, hsr, hst] at h
        · exact ⟨"Unsupported gateType",
            by simp [createPlan, hman, hmet, hcom, hsta]⟩

/-- A CreateRule document selected by createPlan is never the AttachGate
document: the four create mutations are distinct from the upsert mutation. -/
theorem createPlan_doc_ne_upsert (a : GateArgs) (doc : String) (vars : JValue)
    (field : String) (h : createPlan a = .ok (doc, vars, field)) :
    (doc == upsertPipelineGateMutation) = false := by
  unfold createPlan at h
  repeat' split at h
  all_goals first
    | exact Except.noConfusion h
    | (injection h with h1
       simp only [Prod.mk.injEq] at h1
       obtain ⟨h2, -, -⟩ := h1
       subst h2
       decide)

/-- C1: an add_pipeline_gate invocation whose GateSpec fails the
gate-type-specific validation yields a ValidationError and performs zero
network requests: the trace of issued requests is empty, so neither
CreateRule nor AttachGate is executed. -/
theorem add_pipeline_gate_invalid_no_network (transport : Request → HttpResponse)
    (cfg : Config) (a : GateArgs) (h : gateSpecInvalid a = true) :
    (add_pipeline_gate_core transport cfg a).1 = []
    ∧ isValidationError (add_pipeline_gate_core transport cfg a).2 = true := by
  obtain ⟨m, hm⟩ := createPlan_error_of_invalid a h
  unfold add_pipeline_gate_core
  rw [hm]
  exact ⟨rfl, rfl⟩

/-- A transport that always reports a GraphQL failure with one error entry
carrying the message boom; used by the evaluation witnesses. -/
def graphQLFailTransport : Request → HttpResponse := fun _ =>
  ⟨200, "", some (.obj [("errors", .arr [.obj [("message", .str "boom")]])])⟩

/-- A manual gate request whose approvers are all of kind group: the
validation must reject it. -/
def groupOnlyGateArgs : GateArgs :=
  ⟨"pipe-1", "stage-dev", "manual", "QA signoff",
   some [⟨"g1", "qa-team", "group"⟩], none, none, none, true⟩

/-- Witness for C1: the group-only manual request is rejected with a
ValidationError and the request trace is empty. -/
theorem add_pipeline_gate_invalid_no_network_witness :
    gateSpecInvalid groupOnlyGateArgs = true
    ∧ ((add_pipeline_gate_core graphQLFailTransport cfg0 groupOnlyGateArgs).1 = []
       ∧ isValidationError
           (add_pipeline_gate_core graphQLFailTransport cfg0 groupOnlyGateArgs).2 = true) :=
  ⟨rfl, add_pipeline_gate_invalid_no_network graphQLFailTransport cfg0 groupOnlyGateArgs rfl⟩

/-- C2: when the CreateRule call fails with a transport-level or
GraphQL-level error, the provisioner issues exactly that one request, the
AttachGate mutation is never sent, and the failure is propagated
unchanged. -/
theorem add_pipeline_gate_createRule_failure_stops (transport : Request → HttpResponse)
    (cfg : Config) (a : GateArgs) (doc : String) (vars : JValue) (field : String)
    (e : VError)
    (hplan : createPlan a = .ok (doc, vars, field))
    (hfail : (executeGraphQL transport cfg doc vars).2 = .error e)
    (_hkind : isTransportOrGraphQL e = true) :
    add_pipeline_gate_core transport cfg a = ([mkRequest cfg doc vars], .error e)
    ∧ countAttachCalls (add_pipeline_gate_core transport cfg a).1 = 0 := by
  have hne := createPlan_doc_ne_upsert a doc vars field hplan
  simp only [executeGraphQL] at hfail
  have hcore : add_pipeline_gate_core transport cfg a = ([mkRequest cfg doc vars], .error e) := by
    unfold add_pipeline_gate_core
    rw [hplan]
    simp only [executeGraphQL, hfail]
  refine ⟨hcore, ?_⟩
  rw [hcore]
  simp [countAttachCalls, mkRequest, hne]

/-- A manual gate request with one user approver and one group approver. -/
def manualGateArgs : GateArgs :=
  ⟨"pipe-1", "stage-dev", "manual", "QA signoff",
   some [⟨"u1", "alice", "user"⟩, ⟨"g1", "qa-team", "group"⟩], none, none, none, true⟩

/-- Witness for C2: on the concrete manual request, a CreateRule failure
yields a one-request trace with zero attach calls and the same GraphQL
error. -/
theorem add_pipeline_gate_createRule_failure_stops_witness :
    createPlan manualGateArgs
      = .ok (addManualVersionSignOffRuleMutation, manualCreateVars manualGateArgs,
             "addManualVersionSignOffRule")
    ∧ (add_pipeline_gate_core graphQLFailTransport cfg0 manualGateArgs
        = ([mkRequest cfg0 addManualVersionSignOffRuleMutation (manualCreateVars manualGateArgs)],
           .error (.graphQLError (.arr [.obj [("message", .str "boom")]])))
       ∧ countAttachCalls
           (add_pipeline_gate_core graphQLFailTransport cfg0 manualGateArgs).1 = 0) :=
  ⟨rfl,
   add_pipeline_gate_createRule_failure_stops graphQLFailTransport cfg0 manualGateArgs
     addManualVersionSignOffRuleMutation (manualCreateVars manualGateArgs)
     "addManualVersionSignOffRule" (.graphQLError (.arr [.obj [("message", .str "boom")]]))
     rfl rfl rfl⟩

/-- C3: when CreateRule succeeds and yields a rule identifier, AttachGate is
invoked exactly once, with ruleIds the one-element list holding that
identifier and with the original pipelineId, stageId and
manualGateNotification values, and on AttachGate success the attached-gate
representation from the remote service is the output, unmodified. -/
theorem add_pipeline_gate_attaches_created_rule (transport : Request → HttpResponse)
    (cfg : Config) (a : GateArgs) (doc : String) (vars : JValue) (field : String)
    (result ruleObj : Option JValue) (rid : JValue) (upsertResult gate : Option JValue)
    (hplan : createPlan a = .ok (doc, vars, field))
    (h1 : (executeGraphQL transport cfg doc vars).2 = .ok result)
    (h2 : jsGet result field = .ok ruleObj)
    (h3 : jsGet ruleObj "_id" = .ok (some rid))
    (h4 : (executeGraphQL transport cfg upsertPipelineGateMutation
            (upsertGateVars a (some rid))).2 = .ok upsertResult)
    (h5 : jsGet upsertResult "upsertPipelineGate" = .ok gate) :
    add_pipeline_gate_core transport cfg a
      = ([mkRequest cfg doc vars,
          mkRequest cfg upsertPipelineGateMutation (upsertGateVars a (some rid))],
         .ok gate)
    ∧ upsertGateVars a (some rid)
      = .obj [("pipelineId", .str a.pipelineId), ("stageId", .str a.stageId),
              ("ruleIds", .arr [rid]),
              ("manualGateNotification", .bool a.manualGateNotification)]
    ∧ countAttachCalls (add_pipeline_gate_core transport cfg a).1 = 1 := by
  have hne := createPlan_doc_ne_upsert a doc vars field hplan
  simp only [executeGraphQL] at h1 h4
  have hcore : add_pipeline_gate_core transport cfg a
      = ([mkRequest cfg doc vars,
          mkRequest cfg upsertPipelineGateMutation (upsertGateVars a (some rid))],
         .ok gate) := by
    unfold add_pipeline_gate_core
    rw [hplan]
    simp only [executeGraphQL, h1, h2, h3, h4, h5]
  refine ⟨hcore, rfl, ?_⟩
  rw [hcore]
  simp [countAttachCalls, mkRequest, hne]

/-- A transport that answers the CreateRule request (recognized by its
input variable) with a created rule of identifier r1, and the AttachGate
request with an attached-gate object. -/
def gateHappyTransport : Request → HttpResponse := fun req =>
  match req.vars with
  | .obj (("input", _) :: _) =>
    ⟨200, "", some (.obj [("data", .obj
      [("addManualVersionSignOffRule", .obj
        [("_id", .str "r1"), ("name", .str "QA signoff")])])])⟩
  | _ =>
    ⟨200, "", some (.obj [("data", .obj
      [("upsertPipelineGate", .obj
        [("_id", .str "gate-1"), ("pipelineId", .str "pipe-1")])])])⟩

/-- Witness for C3: on the concrete manual request, CreateRule returns rule
identifier r1, the AttachGate request carries ruleIds [r1] with the
original pipeline, stage and notification values, and the attached-gate
object is the output. -/
theorem add_pipeline_gate_attaches_created_rule_witness :
    add_pipeline_gate_core gateHappyTransport cfg0 manualGateArgs
      = ([mkRequest cfg0 addManualVersionSignOffRuleMutation (manualCreateVars manualGateArgs),
          mkRequest cfg0 upsertPipelineGateMutation
            (upsertGateVars manualGateArgs (some (.str "r1")))],
         .ok (some (.obj [("_id", .str "gate-1"), ("pipelineId", .str "pipe-1")])))
    ∧ upsertGateVars manualGateArgs (some (.str "r1"))
      = .obj [("pipelineId", .str "pipe-1"), ("stageId", .str "stage-dev"),
              ("ruleIds", .arr [.str "r1"]), ("manualGateNotification", .bool true)]
    ∧ countAttachCalls (add_pipeline_gate_core gateHappyTransport cfg0 manualGateArgs).1 = 1 :=
  add_pipeline_gate_attaches_created_rule gateHappyTransport cfg0 manualGateArgs
    addManualVersionSignOffRuleMutation (manualCreateVars manualGateArgs)
    "addManualVersionSignOffRule"
    (some (.obj [("addManualVersionSignOffRule", .obj
      [("_id", .str "r1"), ("name", .str "QA signoff")])]))
    (some (.obj [("_id", .str "r1"), ("name", .str "QA signoff")]))
    (.str "r1")
    (some (.obj [("upsertPipelineGate", .obj
      [("_id", .str "gate-1"), ("pipelineId", .str "pipe-1")])]))
    (some (.obj [("_id", .str "gate-1"), ("pipelineId", .str "pipe-1")]))
    rfl rfl rfl rfl rfl rfl

/-- C4: for a manual gate whose approvers hold at least one user-kind
entry, the first (CreateRule) request sent to the remote service carries
exactly the user-kind entries of the supplied approvers list, in order, and
no group-kind entry appears in the outgoing request body. -/
theorem add_pipeline_gate_manual_filters_groups (transport : Request → HttpResponse)
    (cfg : Config) (a : GateArgs)
    (hT : a.gateType = "manual")
    (hN : jsTrim a.gateName ≠ "")
    (hU : userApproversOf a ≠ []) :
    (add_pipeline_gate_core transport cfg a).1.head?
      = some (mkRequest cfg addManualVersionSignOffRuleMutation (manualCreateVars a))
    ∧ manualCreateVars a
      = .obj [("input", .obj
          [("name", .str a.gateName),
           ("pipelineId", .str a.pipelineId),
           ("approvers", .arr
             (((a.manualApprovers.getD []).filter (fun ap => ap.type == "user")).map
               approverJson))])]
    ∧ ∀ x ∈ (a.manualApprovers.getD []).filter (fun ap => ap.type == "user"),
        x.type = "user" ∧ x.type ≠ "group" := by
  have hplan := createPlan_manual a hT hN hU
  refine ⟨?_, rfl, ?_⟩
  · unfold add_pipeline_gate_core
    rw [hplan]
    simp only [executeGraphQL]
    split
    · rfl
    · split
      · rfl
      · split
        · rfl
        · split
          · rfl
          · split <;> rfl
  · intro x hx
    have hmem := List.mem_filter.mp hx
    have hxu : x.type = "user" := by simpa using hmem.2
    refine ⟨hxu, ?_⟩
    rw [hxu]
    decide

/-- Witness for C4: on the concrete manual request with approvers
[user u1, group g1], the CreateRule request body carries only the user
entry. -/
theorem add_pipeline_gate_manual_filters_groups_witness :
    manualGateArgs.gateType = "manual"
    ∧ jsTrim manualGateArgs.gateName ≠ ""
    ∧ userApproversOf manualGateArgs ≠ []
    ∧ ((add_pipeline_gate_core gateHappyTransport cfg0 manualGateArgs).1.head?
        = some (mkRequest cfg0 addManualVersionSignOffRuleMutation
            (manualCreateVars manualGateArgs))
       ∧ manualCreateVars manualGateArgs
         = .obj [("input", .obj
             [("name", .str manualGateArgs.gateName),
              ("pipelineId", .str manualGateArgs.pipelineId),
              ("approvers", .arr
                (((manualGateArgs.manualApprovers.getD []).filter
                    (fun ap => ap.type == "user")).map approverJson))])]
       ∧ ∀ x ∈ (manualGateArgs.manualApprovers.getD []).filter
             (fun ap => ap.type == "user"),
           x.type = "user" ∧ x.type ≠ "group") :=
  ⟨rfl, by decide, by decide,
   add_pipeline_gate_manual_filters_groups gateHappyTransport cfg0 manualGateArgs
     rfl (by decide) (by decide)⟩

/-- C9: each modelled tool handler returns, for every transport outcome and
every argument value, a single text payload as a normal value: the success
path renders the result as text and every request-time failure is rendered
as a descriptive text message; being total functions into ToolResponse,
the handlers never propagate an exception past their boundary. -/
theorem tool_handlers_return_single_text (transport : Request → HttpResponse)
    (cfg : Config) (a : ReleaseEventsArgs) (b : GateArgs) :
    (∃ s, get_release_events_tool transport cfg a = ⟨[.text s]⟩)
    ∧ (∃ s, add_pipeline_gate_tool transport cfg b = ⟨[.text s]⟩) := by
  constructor
  · unfold get_release_events_tool
    dsimp only
    split
    · exact ⟨_, rfl⟩
    · split
      · exact ⟨_, rfl⟩
      · exact ⟨_, rfl⟩
  · unfold add_pipeline_gate_tool
    split
    · exact ⟨_, rfl⟩
    · exact ⟨_, rfl⟩
